import Mathlib

/-!
# Verification of the chat-archive synchronization engine

Shallow embedding of the synchronization and reconciliation engine of the
`chat-archive` program (Python sources under `chat_archive/`), together with
proofs and refutations of the specified properties.

The embedding follows the Python source closely:

* `chat_archive/__init__.py` — `BackendStats` (hierarchical scoped counters);
* `chat_archive/backends/__init__.py` — `ChatArchiveBackend` (identity
  resolver: contacts, conversations, messages, email addresses, telephone
  numbers, the per-run external-id cache);
* `chat_archive/backends/hangouts.py` — retry/backoff loop, per-conversation
  sync state machine, backward paging;
* `chat_archive/backends/telegram.py` — resume cursor computation.

Python `None`/empty-string string columns are modelled as `String` with `""`
standing for NULL/empty (the code only ever tests them for truthiness, which
identifies the two).  SQLAlchemy's `one_or_none` raises `MultipleResultsFound`
on more than one row; queries are therefore modelled as returning
`Option (Option α)` where the outer `none` is the raised exception.
-/

namespace ChatArchive

/-! ## BackendStats (chat_archive/__init__.py, class BackendStats)

A stack of counter scopes.  Each scope is a `collections.defaultdict(int)`,
modelled as an association list from counter name to integer where a missing
key reads as `0`.  The Python stack keeps the top scope at the *end* of the
list; we keep the top scope at the *head*, which is a pure renaming.
(`defaultdict.__getitem__` also inserts the key with value 0 on a read miss;
this is observationally irrelevant for counter values, because `pop()` merges
such entries additively with value 0, so reads are modelled as non-inserting.)
-/

/-- A counter scope: `collections.defaultdict(int)`. -/
abbrev Scope := List (String × Int)

/-- Read a counter from a scope (missing key reads 0, as `defaultdict(int)`). -/
def scopeGet : Scope → String → Int
  | [], _ => 0
  | p :: s, n => if p.1 == n then p.2 else scopeGet s n

/-- Write a counter in a scope (dict update: replace the entry for an existing
key, append a fresh entry otherwise; scopes built this way are duplicate-free,
matching Python dict keys). -/
def scopeSet : Scope → String → Int → Scope
  | [], n, v => [(n, v)]
  | p :: s, n, v => if p.1 == n then (n, v) :: s else p :: scopeSet s n v

/-- `BackendStats.__init__`: `stack = [collections.defaultdict(int)]`. -/
def statsInit : List Scope := [[]]

/-- `BackendStats.push`: append a fresh all-zero scope (our head = Python's last). -/
def statsPush (stack : List Scope) : List Scope := [] :: stack

/-- `self.stats.<n> += v`: `__getattr__` then `__setattr__`, both on the top
scope (`self.scope = self.stack[-1]`).  An empty stack raises `IndexError` in
Python and is unreachable (the stack starts non-empty); we return it unchanged. -/
def statsAdd (stack : List Scope) (n : String) (v : Int) : List Scope :=
  match stack with
  | top :: rest => scopeSet top n (scopeGet top n + v) :: rest
  | [] => []

/-- `BackendStats.pop`: remove the top scope and add each of its counters into
the new top scope.  Popping the last scope leaves an empty stack in Python and
then raises `IndexError` from `self.scope` as soon as a counter is merged, so
that case is modelled as `none` (and `some []` when there is nothing to merge). -/
def statsPop : List Scope → Option (List Scope)
  | top :: next :: rest =>
      some ((top.foldl (fun acc p => scopeSet acc p.1 (scopeGet acc p.1 + p.2)) next) :: rest)
  | [top] => if top.isEmpty then some [] else none
  | [] => none

/-- Read a counter through the stats object (`__getattr__`, top scope). -/
def statsRead (stack : List Scope) (n : String) : Option Int :=
  stack.head?.map (fun top => scopeGet top n)

/-- The scenario sequence `push(); add(A,3); push(); add(A,2); pop()`. -/
def statsScenario (a : String) (stack : List Scope) : Option (List Scope) :=
  statsPop (statsAdd (statsPush (statsAdd (statsPush stack) a 3)) a 2)

/-! ## Retry / backoff loop (chat_archive/backends/hangouts.py,
`HangoutsBackend.download_message_batch` and `retry_count`)

The batch fetch itself (`conversation.get_events`) is abstracted as an oracle
from the attempt number to either a batch or a `hangups.exceptions.NetworkError`.
Backoff amounts are exact rationals (`0.5`, then doubled, capped at `10`). -/

/-- Result of one underlying `conversation.get_events` call. -/
inductive AttemptResult (β : Type) where
  | ok (batch : β)
  | networkError
deriving Repr, DecidableEq

/-- How `download_message_batch` terminates. -/
inductive RetryOutcome (β : Type) where
  /-- `return await conversation.get_events(...)` succeeded. -/
  | returned (batch : β)
  /-- the `raise` in the `else` branch re-raised the `NetworkError`. -/
  | raised
  /-- control fell off the end of the `for` loop: Python returns `None`. -/
  | fellThrough
deriving Repr, DecidableEq

/-- The body of `download_message_batch`'s `for request_nr in range(1, self.retry_count)`
loop, with the remaining `request_nr` values made explicit.  Returns the
outcome together with the number of `get_events` calls made and the list of
back-off sleeps performed (in order). -/
def downloadMessageBatchLoop {β : Type} (oracle : Nat → AttemptResult β) (retryCount : Nat) :
    List Nat → ℚ → Nat → List ℚ → RetryOutcome β × Nat × List ℚ
  | [], _, calls, sleeps => (.fellThrough, calls, sleeps)
  | n :: rest, backOff, calls, sleeps =>
      match oracle n with
      | .ok b => (.returned b, calls + 1, sleeps)
      | .networkError =>
          if n < retryCount then
            downloadMessageBatchLoop oracle retryCount rest (min (backOff * 2) 10)
              (calls + 1) (sleeps ++ [backOff])
          else
            (.raised, calls + 1, sleeps)

/-- `HangoutsBackend.download_message_batch`: `back_off = 0.5`, then
`for request_nr in range(1, self.retry_count)` (`range(1, n)` is `1, …, n-1`). -/
def downloadMessageBatch {β : Type} (oracle : Nat → AttemptResult β) (retryCount : Nat) :
    RetryOutcome β × Nat × List ℚ :=
  downloadMessageBatchLoop oracle retryCount (List.range' 1 (retryCount - 1)) (1 / 2) 0 []

/-- `HangoutsBackend.retry_count` default. -/
def defaultRetryCount : Nat := 5

/-- Oracle for the C2 scenario: transient network errors on attempts 1–4,
success (a batch tagged `42`) available from attempt 5 on. -/
def oracleFailFourTimes : Nat → AttemptResult Nat :=
  fun n => if 5 ≤ n then .ok 42 else .networkError

/-- Oracle that always fails with a transient network error. -/
def oracleAlwaysFail : Nat → AttemptResult Nat := fun _ => .networkError

/-! ## Data model (chat_archive/models.py)

String columns that are nullable in the schema (`external_id`, `first_name`,
`last_name`, `html`, …) are modelled as `String` with `""` for NULL: the code
only ever tests them for truthiness, which identifies NULL and `""`.
Timestamps are modelled as `Nat`.  Each entity's `id` is its primary key. -/

structure Contact where
  id : Nat
  accountId : Nat
  external_id : String := ""
  first_name : String := ""
  last_name : String := ""
  /-- values of the linked `EmailAddress` rows (many-to-many; `EmailAddress.value`
  is globally unique, so a link is identified by the value) -/
  email_addresses : List String := []
  /-- values of the linked `TelephoneNumber` rows -/
  telephone_numbers : List String := []
deriving Repr, DecidableEq

structure Conversation where
  id : Nat
  accountId : Nat
  external_id : String := ""
  name : String := ""
  /-- nullable in the schema, but both sync paths write it at creation before
  ever comparing it, so it is modelled as `Nat` -/
  last_modified : Nat := 0
  import_complete : Bool := false
  import_errors : Bool := false
  is_group_conversation : Bool := false
deriving Repr, DecidableEq

structure Message where
  id : Nat
  conversationId : Nat
  external_id : String := ""
  senderId : Option Nat := none
  recipientId : Option Nat := none
  timestamp : Nat
  text : String := ""
  html : String := ""
deriving Repr, DecidableEq

/-- The relational store (tables reachable from one backend run). -/
structure Db where
  contacts : List Contact := []
  conversations : List Conversation := []
  messages : List Message := []
  /-- the `email_addresses` table (globally unique values) -/
  emailTable : List String := []
  /-- the `telephone_numbers` table (globally unique values) -/
  phoneTable : List String := []
  /-- primary key allocator (autoincrement) -/
  nextId : Nat := 0
deriving Repr, DecidableEq

/-- The counters incremented by the identity resolver.  The Python code writes
them through the scoped `BackendStats` object (always on the current top
scope); the interaction of scopes themselves is modelled separately above, so
here the current scope's counters are a flat record. -/
structure Stats where
  contacts_added : Nat := 0
  contacts_changed : Nat := 0
  conversations_added : Nat := 0
  messages_added : Nat := 0
  email_addresses_added : Nat := 0
  telephone_numbers_added : Nat := 0
  skipped_conversations : Nat := 0
  failed_conversations : Nat := 0
deriving Repr, DecidableEq

/-- State of one `ChatArchiveBackend` run: the store, the per-run
`external_id_cache` and the statistics. -/
structure BState where
  db : Db := {}
  /-- `external_id_cache`: dictionary from external id to the found `Contact`
  (stored here by primary key) or `None` (a cached negative result). -/
  cache : List (String × Option Nat) := []
  stats : Stats := {}
deriving Repr, DecidableEq

/-- SQLAlchemy `Query.one_or_none`: `none` models the `MultipleResultsFound`
exception, `some none` is "no row", `some (some x)` is the unique row. -/
def oneOrNone {α : Type} : List α → Option (Option α)
  | [] => some none
  | [x] => some (some x)
  | _ :: _ :: _ => none

/-! ## Identity resolver (chat_archive/backends/__init__.py) -/

/-- The database query inside `find_contact_by_external_id`:
`query(Contact).filter(Contact.account == self.account).filter(Contact.external_id == external_id).one_or_none()`. -/
def queryContactByExternalId (db : Db) (acct : Nat) (eid : String) : Option (Option Contact) :=
  oneOrNone (db.contacts.filter (fun c => c.accountId == acct && c.external_id == eid))

/-- `external_id_cache.get(external_id)` (dict get: `none` when absent). -/
def cacheLookup (cache : List (String × Option Nat)) (eid : String) : Option (Option Nat) :=
  (cache.find? (fun p => p.1 == eid)).map (fun p => p.2)

/-- `external_id_cache[external_id] = value` (dict update). -/
def cacheStore : List (String × Option Nat) → String → Option Nat → List (String × Option Nat)
  | [], eid, v => [(eid, v)]
  | p :: rest, eid, v => if p.1 == eid then (eid, v) :: rest else p :: cacheStore rest eid v

/-- `ChatArchiveBackend.find_contact_by_external_id`: consult the cache; a
stored `Contact` is returned directly (`value is None` is false), while an
absent key *or a stored `None`* falls through to the database query, whose
result is then cached. -/
def findContactByExternalId (acct : Nat) (st : BState) (eid : String) :
    Option (Option Contact × BState) :=
  match cacheLookup st.cache eid with
  | some (some cid) => some (st.db.contacts.find? (fun c => c.id == cid), st)
  | _ =>
      match queryContactByExternalId st.db acct eid with
      | none => none
      | some v => some (v, { st with cache := cacheStore st.cache eid (v.map (fun c => c.id)) })

/-- `ChatArchiveBackend.find_contact_by_email_address`:
`query(Contact).join(Contact.email_addresses).filter(Contact.account == self.account).filter(EmailAddress.value == value).one_or_none()`.
The join yields one row per matching linked address; a contact links a value
at most once, so the row list is the list of account contacts linked to the value. -/
def findContactByEmailAddress (db : Db) (acct : Nat) (v : String) : Option (Option Contact) :=
  oneOrNone (db.contacts.filter (fun c => c.accountId == acct && c.email_addresses.contains v))

/-- `ChatArchiveBackend.find_contact_by_telephone_number`, translated
faithfully *including its filter on `EmailAddress.value`*: the query joins
`Contact.telephone_numbers` but then filters `EmailAddress.value == value`,
so SQLAlchemy adds the unjoined `email_addresses` table to the FROM clause as
a cross product.  The row multiset is one row per
(telephone link of an account contact) × (email-address row equal to `value`). -/
def findContactByTelephoneNumber (db : Db) (acct : Nat) (v : String) : Option (Option Contact) :=
  oneOrNone ((db.contacts.filter (fun c => c.accountId == acct)).flatMap (fun c =>
    c.telephone_numbers.flatMap (fun _ =>
      (db.emailTable.filter (fun e => e == v)).map (fun _ => c))))

/-- The `for subkey in value:` loop of `find_contact_by_attributes`: try a
lookup for each value, return the first hit, propagate a raised
`MultipleResultsFound` (outer `none`). -/
def firstContactMatch (f : String → Option (Option Contact)) : List String → Option (Option Contact)
  | [] => some none
  | v :: rest =>
      match f v with
      | none => none
      | some (some c) => some (some c)
      | some none => firstContactMatch f rest

/-- `ChatArchiveBackend.find_contact_by_attributes`: consult the criteria in
the fixed order `external_id`, `email_addresses`, `telephone_numbers`; each
criterion is consulted only when its value is truthy, and the first found
contact is returned.  (`emails`/`phones` are the plural lists as present in
the attributes dictionary when the method is called.) -/
def findContactByAttributes (acct : Nat) (st : BState) (eid : String)
    (emails phones : List String) : Option (Option Contact × BState) :=
  let laterCriteria : BState → Option (Option Contact × BState) := fun st' =>
    match firstContactMatch (findContactByEmailAddress st'.db acct) emails with
    | none => none
    | some (some c) => some (some c, st')
    | some none =>
        match firstContactMatch (findContactByTelephoneNumber st'.db acct) phones with
        | none => none
        | some r => some (r, st')
  if eid != "" then
    match findContactByExternalId acct st eid with
    | none => none
    | some (some c, st') => some (some c, st')
    | some (none, st') => laterCriteria st'
  else laterCriteria st

/-- The keyword arguments accepted by `get_or_create_contact`.  A key that is
absent from the Python dictionary behaves exactly like a falsy value wherever
it is read, so absence is modelled as `""` / `[]`. -/
structure ContactAttrs where
  external_id : String := ""
  full_name : String := ""
  first_name : String := ""
  last_name : String := ""
  email_address : String := ""
  email_addresses : List String := []
  telephone_number : String := ""
  telephone_numbers : List String := []
deriving Repr, DecidableEq

/-- The singular→plural translation at the top of `get_or_create_contact`:
`collection = attributes.setdefault(plural, []); if singular_value: collection.append(singular_value)`. -/
def translatedEmails (a : ContactAttrs) : List String :=
  a.email_addresses ++ (if a.email_address != "" then [a.email_address] else [])

/-- Same translation for telephone numbers. -/
def translatedPhones (a : ContactAttrs) : List String :=
  a.telephone_numbers ++ (if a.telephone_number != "" then [a.telephone_number] else [])

/-- Helper for `str.split()`: walk the characters, accumulating the current
word (in reverse) and emitting words at space boundaries. -/
def splitWordsAux : List Char → List Char → List String
  | [], cur => if cur.isEmpty then [] else [String.mk cur.reverse]
  | ch :: rest, cur =>
      if ch = ' ' then
        if cur.isEmpty then splitWordsAux rest []
        else String.mk cur.reverse :: splitWordsAux rest []
      else splitWordsAux rest (ch :: cur)

/-- Python `str.split()` with no argument: split on whitespace runs, dropping
empty tokens. -/
def splitWords (s : String) : List String := splitWordsAux s.toList []

/-- Python `" ".join(words)`. -/
def joinWords : List String → String
  | [] => ""
  | [w] => w
  | w :: rest => w ++ " " ++ joinWords rest

/-- The `full_name` split: `words = full_name.split()`; the first word becomes
`first_name` (overwriting a supplied one) and the remainder, when non-empty,
joins into `last_name`.  Returns the resulting (first_name, last_name) pair of
the attributes dictionary. -/
def splitFullName (a : ContactAttrs) : String × String :=
  match splitWords a.full_name with
  | [] => (a.first_name, a.last_name)
  | w :: rest => (w, if rest.isEmpty then a.last_name else joinWords rest)

/-- `ChatArchiveBackend.get_or_create_email_address` (via `get_or_create_object`
on the `EmailAddress` table, required match on `value`). -/
def getOrCreateEmailAddress (db : Db) (stats : Stats) (v : String) :
    Option (String × Db × Stats) :=
  match oneOrNone (db.emailTable.filter (fun e => e == v)) with
  | none => none
  | some (some e) => some (e, db, stats)
  | some none =>
      some (v, { db with emailTable := db.emailTable ++ [v] },
        { stats with email_addresses_added := stats.email_addresses_added + 1 })

/-- `ChatArchiveBackend.get_or_create_telephone_number`. -/
def getOrCreateTelephoneNumber (db : Db) (stats : Stats) (v : String) :
    Option (String × Db × Stats) :=
  match oneOrNone (db.phoneTable.filter (fun e => e == v)) with
  | none => none
  | some (some e) => some (e, db, stats)
  | some none =>
      some (v, { db with phoneTable := db.phoneTable ++ [v] },
        { stats with telephone_numbers_added := stats.telephone_numbers_added + 1 })

/-- Accumulator threaded through the update/association part of
`get_or_create_contact`: the contact being built, the store, the statistics
and the `changes_made` flag. -/
structure MergeAcc where
  contact : Contact
  db : Db
  stats : Stats
  changed : Bool
deriving Repr, DecidableEq

/-- One iteration of the email-association loop: get-or-create the
`EmailAddress` row, then append it to the contact's addresses unless it is
already linked, raising the `changes_made` flag on an actual append. -/
def associateEmail (acc : MergeAcc) (v : String) : Option MergeAcc :=
  match getOrCreateEmailAddress acc.db acc.stats v with
  | none => none
  | some (obj, db', stats') =>
      if acc.contact.email_addresses.contains obj then
        some { acc with db := db', stats := stats' }
      else
        some { acc with
          contact := { acc.contact with
            email_addresses := acc.contact.email_addresses ++ [obj] },
          db := db', stats := stats', changed := true }

/-- The email-association `for` loop of `get_or_create_contact`. -/
def associateEmails : List String → MergeAcc → Option MergeAcc
  | [], acc => some acc
  | v :: rest, acc =>
      match associateEmail acc v with
      | none => none
      | some acc' => associateEmails rest acc'

/-- One iteration of the telephone-association loop. -/
def associatePhone (acc : MergeAcc) (v : String) : Option MergeAcc :=
  match getOrCreateTelephoneNumber acc.db acc.stats v with
  | none => none
  | some (obj, db', stats') =>
      if acc.contact.telephone_numbers.contains obj then
        some { acc with db := db', stats := stats' }
      else
        some { acc with
          contact := { acc.contact with
            telephone_numbers := acc.contact.telephone_numbers ++ [obj] },
          db := db', stats := stats', changed := true }

/-- The telephone-association `for` loop of `get_or_create_contact`. -/
def associatePhones : List String → MergeAcc → Option MergeAcc
  | [], acc => some acc
  | v :: rest, acc =>
      match associatePhone acc v with
      | none => none
      | some acc' => associatePhones rest acc'

/-- The attribute-update loop on an existing contact:
`if value and not value_in_db: setattr(contact, attribute_name, value)`.
The attributes dictionary holds (at most) `external_id`, `first_name` and
`last_name` at this point. -/
def fillAttr (dbVal newVal : String) : String × Bool :=
  if newVal != "" && dbVal == "" then (newVal, true) else (dbVal, false)

/-- Apply the never-clobber fill rule to the three column attributes. -/
def mergeContactAttributes (c : Contact) (eid fn ln : String) : Contact × Bool :=
  ({ c with external_id := (fillAttr c.external_id eid).1,
            first_name := (fillAttr c.first_name fn).1,
            last_name := (fillAttr c.last_name ln).1 },
   (fillAttr c.external_id eid).2 || (fillAttr c.first_name fn).2
     || (fillAttr c.last_name ln).2)

/-- Write the (mutated) contact back into the contacts table: in Python the
updates happen in place on the session object; here the row is replaced by
primary key once all updates are done, which is observationally identical
because nothing reads the row in between. -/
def replaceContact (db : Db) (c : Contact) : Db :=
  { db with contacts := db.contacts.map (fun x => if x.id == c.id then c else x) }

/-- The "update the attributes of an existing contact" branch of
`get_or_create_contact`: apply the fill rule to the remaining attributes. -/
def mergeBranch (st1 : BState) (a : ContactAttrs) (cF : Contact) : MergeAcc :=
  { contact := (mergeContactAttributes cF a.external_id
      (splitFullName a).1 (splitFullName a).2).1,
    db := st1.db, stats := st1.stats,
    changed := (mergeContactAttributes cF a.external_id
      (splitFullName a).1 (splitFullName a).2).2 }

/-- The row built by `Contact(**attributes)` in the "create a new contact"
branch (the account defaulted in, the names from the `full_name` split). -/
def newContact (acct : Nat) (st1 : BState) (a : ContactAttrs) : Contact :=
  { id := st1.db.nextId, accountId := acct, external_id := a.external_id,
    first_name := (splitFullName a).1, last_name := (splitFullName a).2 }

/-- The "create a new contact" branch of `get_or_create_contact`:
add + flush the new row and count `contacts_added`. -/
def createBranch (acct : Nat) (st1 : BState) (a : ContactAttrs) : MergeAcc :=
  { contact := newContact acct st1 a,
    db := { st1.db with contacts := st1.db.contacts ++ [newContact acct st1 a],
                        nextId := st1.db.nextId + 1 },
    stats := { st1.stats with contacts_added := st1.stats.contacts_added + 1 },
    changed := false }

/-- The tail of `get_or_create_contact`: count `contacts_changed` when the
`changes_made` flag is up and write the contact back. -/
def finishContact (st1 : BState) (acc2 : MergeAcc) : Contact × BState :=
  (acc2.contact,
    { db := replaceContact acc2.db acc2.contact, cache := st1.cache,
      stats := if acc2.changed then
          { acc2.stats with contacts_changed := acc2.stats.contacts_changed + 1 }
        else acc2.stats })

/-- `ChatArchiveBackend.get_or_create_contact`. -/
def getOrCreateContact (acct : Nat) (st : BState) (a : ContactAttrs) :
    Option (Contact × BState) :=
  match findContactByAttributes acct st a.external_id
      (translatedEmails a) (translatedPhones a) with
  | none => none
  | some (found, st1) =>
      match associateEmails (translatedEmails a)
          (match found with
           | some cF => mergeBranch st1 a cF
           | none => createBranch acct st1 a) with
      | none => none
      | some acc1 =>
          match associatePhones (translatedPhones a) acc1 with
          | none => none
          | some acc2 => some (finishContact st1 acc2)

/-! ### Messages and conversations -/

/-- The keyword arguments of `get_or_create_message`.  `senderKey`/
`recipientKey` distinguish an absent key (`none`) from a present key whose
value may itself be `None` (an unknown sender); `attributes.pop("sender")`
raises `KeyError` when the key is absent.  `timestamp` is `none` when absent
(its column is NOT NULL, so creating without it fails at flush). -/
structure MsgAttrs where
  external_id : String := ""
  senderKey : Option (Option Nat) := none
  recipientKey : Option (Option Nat) := none
  timestamp : Option Nat := none
  text : String := ""
  html : String := ""
deriving Repr, DecidableEq

/-- `ChatArchiveBackend.pre_process_text`, parameterized by the two redirect
strippers (`strip_redirects` and `RedirectStripper.__call__`, markup handling
external to the engine): the text is always stripped, and the html, when
present, is stripped and dropped when it equals the stripped text. -/
def preProcessText (stripText stripHtml : String → String) (a : MsgAttrs) : MsgAttrs :=
  let t := stripText a.text
  let a' := { a with text := t }
  if a'.html != "" then
    let m := stripHtml a'.html
    if m != t then { a' with html := m } else { a' with html := "" }
  else a'

/-- The part of `ChatArchiveBackend.get_or_create_message` after
`pre_process_text`: the identity key is `(conversation, external_id)` when a
truthy external id is supplied, else `(conversation, sender, timestamp)`;
lookup with `one_or_none`, then create (counting `messages_added`) or return
the existing row. -/
def getOrCreateMessageCore (st : BState)
    (convId : Nat) (a : MsgAttrs) : Option (Bool × Message × BState) :=
  if a.external_id != "" then
    match oneOrNone (st.db.messages.filter (fun m =>
        m.conversationId == convId && m.external_id == a.external_id)) with
    | none => none
    | some (some m) => some (false, m, st)
    | some none =>
        match a.timestamp with
        | none => none
        | some ts =>
            let m : Message :=
              { id := st.db.nextId, conversationId := convId, external_id := a.external_id,
                senderId := a.senderKey.getD none, recipientId := a.recipientKey.getD none,
                timestamp := ts, text := a.text, html := a.html }
            some (true, m, { st with
              db := { st.db with messages := st.db.messages ++ [m], nextId := st.db.nextId + 1 },
              stats := { st.stats with messages_added := st.stats.messages_added + 1 } })
  else
    match a.senderKey, a.timestamp with
    | some sender, some ts =>
        match oneOrNone (st.db.messages.filter (fun m =>
            m.conversationId == convId && m.senderId == sender && m.timestamp == ts)) with
        | none => none
        | some (some m) => some (false, m, st)
        | some none =>
            let m : Message :=
              { id := st.db.nextId, conversationId := convId, external_id := a.external_id,
                senderId := sender, recipientId := a.recipientKey.getD none,
                timestamp := ts, text := a.text, html := a.html }
            some (true, m, { st with
              db := { st.db with messages := st.db.messages ++ [m], nextId := st.db.nextId + 1 },
              stats := { st.stats with messages_added := st.stats.messages_added + 1 } })
    | _, _ => none

/-- `ChatArchiveBackend.get_or_create_message`: `pre_process_text` mutates the
attributes first, then the lookup/creation runs. -/
def getOrCreateMessage (stripText stripHtml : String → String) (st : BState)
    (convId : Nat) (attrs : MsgAttrs) : Option (Bool × Message × BState) :=
  getOrCreateMessageCore st convId (preProcessText stripText stripHtml attrs)

/-- `ChatArchiveBackend.get_or_create_conversation`: required match on
`(account, external_id)`; the remaining attributes only apply on creation. -/
def getOrCreateConversation (acct : Nat) (st : BState) (eid : String)
    (importComplete importErrors isGroup : Bool) (lastModified : Nat) (name : String) :
    Option (Conversation × BState) :=
  match oneOrNone (st.db.conversations.filter (fun c =>
      c.accountId == acct && c.external_id == eid)) with
  | none => none
  | some (some c) => some (c, st)
  | some none =>
      let c : Conversation :=
        { id := st.db.nextId, accountId := acct, external_id := eid, name := name,
          last_modified := lastModified, import_complete := importComplete,
          import_errors := importErrors, is_group_conversation := isGroup }
      some (c, { st with
        db := { st.db with conversations := st.db.conversations ++ [c],
                           nextId := st.db.nextId + 1 },
        stats := { st.stats with conversations_added := st.stats.conversations_added + 1 } })

/-- `Conversation.oldest_message`: messages of the conversation ordered by
timestamp ascending, first row (ties resolved by table order). -/
def oldestMessage (db : Db) (convId : Nat) : Option Message :=
  (db.messages.filter (fun m => m.conversationId == convId)).foldl
    (fun acc m => match acc with
      | none => some m
      | some b => if m.timestamp < b.timestamp then some m else some b) none

/-- `Conversation.newest_message`: ordered by timestamp descending, first row. -/
def newestMessage (db : Db) (convId : Nat) : Option Message :=
  (db.messages.filter (fun m => m.conversationId == convId)).foldl
    (fun acc m => match acc with
      | none => some m
      | some b => if b.timestamp < m.timestamp then some m else some b) none

/-! ## Synchronization control (chat_archive/backends/hangouts.py and
telegram.py)

The per-conversation sync state machine: dispatch between skip / incremental
update / initial sync, the error-flag choreography of
`handle_import_errors` / `perform_initial_sync`, backward paging order and
resume cursors.  The actual network download is abstracted as a function
`Option String → SyncSt → Except SyncSt SyncSt` from the first request cursor
(the Hangouts `event_id`); an exception carries the state built before it was
raised, since Python exceptions do not roll the session back. -/

/-- A Hangouts conversation event as delivered by `conversation.get_events`. -/
structure HEvent where
  eid : String
  timestamp : Nat
  isChatMessage : Bool := true
  text : String := ""
deriving Repr, DecidableEq

/-- A remote conversation descriptor as seen through the driver. -/
structure RemoteConv where
  external_id : String
  last_modified : Nat
  isGroup : Bool := false
  /-- the full remote history, oldest first -/
  events : List HEvent := []
deriving Repr, DecidableEq

/-- Modelled from the spec: `hangups`' `conversation.get_events(event_id)`
(the external Batch Fetch Driver of §4.3, not part of this repository):
produce the batch of events strictly before the cursor event — the most
recent events when no cursor is given — oldest first, at most `batchSize` of
them. -/
def hangoutsGetEvents (history : List HEvent) (cursor : Option String)
    (batchSize : Nat) : List HEvent :=
  let older := match cursor with
    | none => history
    | some eid => history.takeWhile (fun e => e.eid != eid)
  (older.reverse.take batchSize).reverse

/-- Python `sorted(xs, key=key, reverse=True)`: stable descending sort
(elements with equal keys keep their original order). -/
def insertDesc {α : Type} (key : α → Nat) (x : α) : List α → List α
  | [] => [x]
  | y :: ys => if key x ≤ key y then y :: insertDesc key x ys else x :: y :: ys

/-- See `insertDesc`. -/
def pySortedDesc {α : Type} (key : α → Nat) (xs : List α) : List α :=
  xs.foldl (fun acc x => insertDesc key x acc) []

/-- Python `sorted(xs, key=key)`: stable ascending sort. -/
def insertAsc {α : Type} (key : α → Nat) (x : α) : List α → List α
  | [] => [x]
  | y :: ys => if key y ≤ key x then y :: insertAsc key x ys else x :: y :: ys

/-- See `insertAsc`. -/
def pySortedAsc {α : Type} (key : α → Nat) (xs : List α) : List α :=
  xs.foldl (fun acc x => insertAsc key x acc) []

/-- The order in which one iteration of
`HangoutsBackend.download_all_messages` processes a delivered batch:
the non-chat events are filtered out, then
`sorted(downloaded_messages, key=lambda e: event.timestamp, reverse=True)`
runs — but `event` in the key is not the lambda's parameter: it is the
variable of the preceding filter loop, which at this point holds the *last
event of the batch*, so the key is constant and the stable sort returns the
chat messages in raw delivery order. -/
def hangoutsProcessOrder (batch : List HEvent) : List HEvent :=
  match batch.getLast? with
  | none => []
  | some lastEv =>
      pySortedDesc (fun _ => lastEv.timestamp) (batch.filter (fun e => e.isChatMessage))

/-- The cursor update at the end of an iteration of `download_all_messages`:
`new_messages = sorted(new_messages, key=lambda m: m.timestamp)` followed by
`event_id = new_messages[0].external_id` (`none` models the `return` taken
when no new messages were created). -/
def hangoutsNewCursor (newMessages : List Message) : Option String :=
  match pySortedAsc (fun m => m.timestamp) newMessages with
  | [] => none
  | m :: _ => some m.external_id

/-- Per-conversation synchronization state: the in-session backend state plus
the last committed (on-disk) snapshot. -/
structure SyncSt where
  st : BState
  disk : Db := {}
deriving Repr, DecidableEq

/-- `ChatArchive.commit_changes`: flush the session to durable storage. -/
def commitChanges (s : SyncSt) : SyncSt := { s with disk := s.st.db }

/-- Write `import_errors` on the conversation row (in session). -/
def setImportErrors (s : SyncSt) (convId : Nat) (b : Bool) : SyncSt :=
  { s with st := { s.st with db := { s.st.db with
      conversations := s.st.db.conversations.map (fun c =>
        if c.id == convId then { c with import_errors := b } else c) } } }

/-- Write `import_complete` on the conversation row (in session). -/
def setImportComplete (s : SyncSt) (convId : Nat) (b : Bool) : SyncSt :=
  { s with st := { s.st with db := { s.st.db with
      conversations := s.st.db.conversations.map (fun c =>
        if c.id == convId then { c with import_complete := b } else c) } } }

/-- Write `last_modified` on the conversation row (in session). -/
def setLastModified (s : SyncSt) (convId : Nat) (t : Nat) : SyncSt :=
  { s with st := { s.st with db := { s.st.db with
      conversations := s.st.db.conversations.map (fun c =>
        if c.id == convId then { c with last_modified := t } else c) } } }

/-- Look a conversation row up by primary key. -/
def getConv (db : Db) (convId : Nat) : Option Conversation :=
  db.conversations.find? (fun c => c.id == convId)

/-- `HangoutsBackend.handle_import_errors`: run the download; on any
exception set `import_errors` and re-raise, on success clear it.  (The
`with self.stats:` scope push/pop around the download only affects statistics
reporting and is modelled separately by `statsPush`/`statsPop`.) -/
def handleImportErrors (download : SyncSt → Except SyncSt SyncSt) (convId : Nat)
    (s : SyncSt) : Except SyncSt SyncSt :=
  match download s with
  | .ok s' => .ok (setImportErrors s' convId false)
  | .error s' => .error (setImportErrors s' convId true)

/-- `HangoutsBackend.perform_initial_sync`: resume from the oldest known
message's external id (no cursor on a fresh conversation); on success mark
`import_complete` and commit. -/
def performInitialSync (download : Option String → SyncSt → Except SyncSt SyncSt)
    (convId : Nat) (s : SyncSt) : Except SyncSt SyncSt :=
  match handleImportErrors
      (download ((oldestMessage s.st.db convId).map (fun m => m.external_id)))
      convId s with
  | .error s' => .error s'
  | .ok s' => .ok (commitChanges (setImportComplete s' convId true))

/-- `HangoutsBackend.download_conversation`: get-or-create the conversation
row, then skip it (errors without `--force`, or no remote updates), run an
incremental update (note: *without* any cursor — `handle_import_errors` is
called with no `event_id`), or run/resume the initial sync. -/
def downloadConversation (download : Option String → SyncSt → Except SyncSt SyncSt)
    (acct : Nat) (force : Bool) (remote : RemoteConv) (s : SyncSt) :
    Except SyncSt SyncSt :=
  match getOrCreateConversation acct s.st remote.external_id false false
      remote.isGroup remote.last_modified "" with
  | none => .error s
  | some (conv, st1) =>
      if conv.import_errors && !force then
        .ok { s with st := { st1 with stats := { st1.stats with
          skipped_conversations := st1.stats.skipped_conversations + 1 } } }
      else if conv.import_complete then
        if decide (remote.last_modified > conv.last_modified) then
          match handleImportErrors (download none) conv.id { s with st := st1 } with
          | .error s' => .error s'
          | .ok s' => .ok (setLastModified s' conv.id remote.last_modified)
        else .ok { s with st := st1 }
      else performInitialSync download conv.id { s with st := st1 }

/-- The value of one decimal digit character. -/
def digitVal (c : Char) : Option Nat :=
  if 48 ≤ c.toNat ∧ c.toNat ≤ 57 then some (c.toNat - 48) else none

/-- Helper for `parseNat`. -/
def parseNatAux : List Char → Nat → Option Nat
  | [], acc => some acc
  | c :: rest, acc =>
      match digitVal c with
      | none => none
      | some d => parseNatAux rest (acc * 10 + d)

/-- Python `int(...)` on the plain decimal strings that Telegram message ids
are stored as; `none` models the `ValueError` of a non-numeric string. -/
def parseNat (s : String) : Option Nat :=
  if s.toList.isEmpty then none else parseNatAux s.toList 0

/-- `TelegramBackend.perform_initial_sync`: the `max_id` option — the oldest
known message's external id parsed with `int(...)` when resuming, `0` (no
bound) on a fresh conversation. -/
def telegramInitialMaxId (db : Db) (convId : Nat) : Option Nat :=
  match oldestMessage db convId with
  | none => some 0
  | some m => parseNat m.external_id

/-- `TelegramBackend.update_conversation`:
`min_id = int(conversation_in_db.newest_message.external_id)`. -/
def telegramUpdateMinId (db : Db) (convId : Nat) : Option Nat :=
  (newestMessage db convId).bind (fun m => parseNat m.external_id)

/-- Modelled from the spec: telethon's `iter_messages(dialog, max_id=…,
min_id=…)` (the external Batch Fetch Driver of §4.3, not part of this
repository) yields exactly the remote messages whose id is strictly above
`min_id` (when non-zero) and strictly below `max_id` (when non-zero). -/
def telegramRequested (minId maxId i : Nat) : Bool :=
  (minId == 0 || minId < i) && (maxId == 0 || i < maxId)

/-! ### Concrete scenario inputs -/

/-- The empty backend state at the start of a run over a fresh archive. -/
def emptyState : BState := {}

/-- The duplicate message descriptor `{external_id:"100", text:"hi"}` of the
C1 scenario (with the mandatory timestamp). -/
def dupDescriptor : MsgAttrs := { external_id := "100", text := "hi", timestamp := some 7 }

/-- First call of the C3 scenario. -/
def contactScenarioFirst : Option (Contact × BState) :=
  getOrCreateContact 0 emptyState { external_id := "u1", full_name := "Alice" }

/-- Second call of the C3 scenario, on the state left by the first. -/
def contactScenarioSecond : Option (Contact × BState) :=
  contactScenarioFirst.bind (fun p =>
    getOrCreateContact 0 p.2 { external_id := "u1", last_name := "Smith" })

/-- A contact already linked to telephone number `"555"` (and matching no
supplied external id or email address). -/
def contactWithPhone : Contact :=
  { id := 0, accountId := 0, external_id := "x7", first_name := "Dana",
    telephone_numbers := ["555"] }

/-- Store holding `contactWithPhone`, with `"555"` in the `telephone_numbers`
table and an empty `email_addresses` table. -/
def phoneLookupState : BState :=
  { db := { contacts := [contactWithPhone], phoneTable := ["555"], nextId := 1 } }

/-- A contact used in the cache-behavior witness. -/
def cachedContact : Contact := { id := 0, accountId := 0, external_id := "u1" }

/-- State whose cache holds a positive entry for `"u1"`. -/
def cacheHitState : BState :=
  { db := { contacts := [cachedContact], nextId := 1 }, cache := [("u1", some 0)] }

/-- State whose cache holds a stale negative entry for `"u1"` while the store
already holds a matching contact (created after the negative was cached). -/
def cacheNegState : BState :=
  { db := { contacts := [cachedContact], nextId := 1 }, cache := [("u1", none)] }

/-- The contact created for `{external_id := "w1", email_address := "a@b"}`. -/
def c9EmailContact : Contact :=
  { id := 0, accountId := 0, external_id := "w1", email_addresses := ["a@b"] }

/-- The state after creating `c9EmailContact` on a fresh archive. -/
def c9EmailState : BState :=
  { db := { contacts := [c9EmailContact], emailTable := ["a@b"], nextId := 1 },
    cache := [("w1", none)],
    stats := { contacts_added := 1, contacts_changed := 1, email_addresses_added := 1 } }

/-- The contact created for `{external_id := "w1"}` (no addresses). -/
def c9PlainContact : Contact := { id := 0, accountId := 0, external_id := "w1" }

/-- The state after creating `c9PlainContact` on a fresh archive. -/
def c9PlainState : BState :=
  { db := { contacts := [c9PlainContact], nextId := 1 },
    cache := [("w1", none)],
    stats := { contacts_added := 1 } }

/-! ### Concrete synchronization scenarios -/

/-- The C8 failing batch, in raw delivery order: timestamps 2, 3, 1. -/
def batchC8 : List HEvent :=
  [{ eid := "a", timestamp := 2 }, { eid := "b", timestamp := 3 },
   { eid := "c", timestamp := 1 }]

/-- A conversation already fully imported (complete, no errors), last seen
modified at time 5. -/
def completeConv : Conversation :=
  { id := 0, accountId := 0, external_id := "conv1", last_modified := 5,
    import_complete := true, import_errors := false }

/-- The newest (and only) known message of `completeConv`. -/
def msg9 : Message :=
  { id := 1, conversationId := 0, external_id := "e9", timestamp := 9 }

/-- Sync state holding `completeConv` and `msg9`, fully committed. -/
def completeSyncState : SyncSt :=
  { st := { db := { conversations := [completeConv], messages := [msg9], nextId := 2 } },
    disk := { conversations := [completeConv], messages := [msg9], nextId := 2 } }

/-- The remote side of `completeConv` after an update: history e1, e9, e10,
last modified 10 (newer than the stored 5). -/
def remoteUpdated : RemoteConv :=
  { external_id := "conv1", last_modified := 10,
    events := [{ eid := "e1", timestamp := 1 }, { eid := "e9", timestamp := 9 },
               { eid := "e10", timestamp := 10 }] }

/-- Download stub that distinguishes the cursor it is given: it raises exactly
when invoked with no cursor, so an `.error` outcome of the dispatch proves the
fetch was issued cursor-less. -/
def cursorProbe : Option String → SyncSt → Except SyncSt SyncSt :=
  fun cur s => match cur with
    | none => .error s
    | some _ => .ok s

/-- Download stub that always raises (a `PermanentProtocolError`). -/
def alwaysFailDownload : Option String → SyncSt → Except SyncSt SyncSt :=
  fun _ s => .error s

/-- Download stub that succeeds leaving the state alone. -/
def okDownload : Option String → SyncSt → Except SyncSt SyncSt :=
  fun _ s => .ok s

/-- A conversation still in its initial sync (no flags set). -/
def pendingConv : Conversation :=
  { id := 0, accountId := 0, external_id := "conv1", last_modified := 5 }

/-- Sync state holding only `pendingConv`, nothing committed yet. -/
def pendingSyncState : SyncSt :=
  { st := { db := { conversations := [pendingConv], nextId := 1 } } }

/-- The message persisted by the first batch of the failing run. -/
def msgBatch1 : Message :=
  { id := 1, conversationId := 0, external_id := "e5", timestamp := 5 }

/-- A download that persists one batch, commits it, then raises mid-run. -/
def commitThenFail : SyncSt → Except SyncSt SyncSt :=
  fun s => .error (commitChanges { s with st := { s.st with db := { s.st.db with
    messages := s.st.db.messages ++ [msgBatch1], nextId := s.st.db.nextId + 1 } } })

/-- The partial state `commitThenFail` leaves behind on `pendingSyncState`. -/
def partialState : SyncSt :=
  commitChanges { pendingSyncState with st := { pendingSyncState.st with
    db := { pendingSyncState.st.db with
      messages := pendingSyncState.st.db.messages ++ [msgBatch1],
      nextId := pendingSyncState.st.db.nextId + 1 } } }

/-- The oldest known message of the Telegram resume scenario (external id
`"500"`). -/
def tgMsgOld : Message :=
  { id := 1, conversationId := 0, external_id := "500", timestamp := 5 }

/-- The newest known message of the Telegram update scenario. -/
def tgMsgNew : Message :=
  { id := 2, conversationId := 0, external_id := "700", timestamp := 7 }

/-- Store for the Telegram cursor scenarios. -/
def telegramDb : Db := { messages := [tgMsgOld, tgMsgNew], nextId := 3 }

/-- The oldest known message of the Hangouts resume scenario. -/
def e5Msg : Message :=
  { id := 1, conversationId := 0, external_id := "e5", timestamp := 5 }

/-- Sync state for the Hangouts resume scenario: `pendingConv` with `e5Msg`
already imported. -/
def hangoutsResumeState : SyncSt :=
  { st := { db := { conversations := [pendingConv], messages := [e5Msg], nextId := 2 } } }

/-- Backend state holding just `msg9`, for the no-recreation conjunct. -/
def msg9State : BState :=
  { db := { messages := [msg9], nextId := 2 } }

instance {α β : Type} [DecidableEq α] [DecidableEq β] : DecidableEq (Except α β) := fun x y =>
  match x, y with
  | .error a, .error b =>
      if h : a = b then .isTrue (congrArg Except.error h)
      else .isFalse (fun hc => h (Except.error.inj hc))
  | .ok a, .ok b =>
      if h : a = b then .isTrue (congrArg Except.ok h)
      else .isFalse (fun hc => h (Except.ok.inj hc))
  | .error _, .ok _ => .isFalse (fun hc => Except.noConfusion hc)
  | .ok _, .error _ => .isFalse (fun hc => Except.noConfusion hc)

/-! ### Theorems for the statistics aggregator and the retry loop -/

theorem scopeGet_scopeSet (s : Scope) (n : String) (v : Int) :
    scopeGet (scopeSet s n v) n = v := by
  induction s with
  | nil => simp [scopeGet, scopeSet]
  | cons p s ih =>
      by_cases h : p.1 == n
      · simp [scopeSet, scopeGet, h]
      · simp [scopeSet, scopeGet, h, ih]

/-- C7: `push()` appends an all-zero scope, `pop()` merges the top scope
additively into the new top, and reads/increments target the top scope, so
`push(); add(A,3); push(); add(A,2); pop()` leaves the top scope's counter `A`
at `5` from any starting stack (any nesting depth), a further `pop()` adds the
`5` into the scope below, and from a fresh `BackendStats` the root scope ends
at `A == 5`. -/
theorem backendStats_scoped_counters (a : String) (top : Scope) (rest : List Scope) :
    (∃ st', statsScenario a (top :: rest) = some st' ∧
      statsRead st' a = some 5 ∧
      statsPop st' = some (scopeSet top a (scopeGet top a + 5) :: rest) ∧
      statsRead (scopeSet top a (scopeGet top a + 5) :: rest) a
        = some (scopeGet top a + 5)) ∧
    (statsScenario a statsInit).bind statsPop = some [[(a, 5)]] := by
  constructor
  · refine ⟨_, rfl, ?_, ?_, ?_⟩
    · simp [statsRead, scopeGet, scopeSet]
    · simp [statsPop, statsScenario, statsPush, statsAdd, scopeGet, scopeSet]
    · simp [statsRead, scopeGet_scopeSet]
  · simp [statsScenario, statsInit, statsPush, statsAdd, statsPop, scopeGet, scopeSet, statsRead]

/-- C2 (refutation of the documented retry count): with the default
`retry_count = 5`, the loop `for request_nr in range(1, self.retry_count)`
makes only 4 `get_events` calls.  When the call fails with a `NetworkError` on
attempts 1–4 (success available from attempt 5 on), the code sleeps 0.5, 1, 2
and 4 time-units and then falls off the loop returning `None` — the batch is
never returned.  When every attempt fails the outcome is identical: the
`raise` branch (guarded by `request_nr < self.retry_count`, which is always
true inside the loop) is unreachable, so the error is not propagated either. -/
theorem download_message_batch_off_by_one :
    downloadMessageBatch oracleFailFourTimes defaultRetryCount
      = (.fellThrough, 4, [1/2, 1, 2, 4]) ∧
    downloadMessageBatch oracleAlwaysFail defaultRetryCount
      = (.fellThrough, 4, [1/2, 1, 2, 4]) := by
  constructor
  · show downloadMessageBatchLoop _ _ _ _ _ _ = _
    norm_num [downloadMessageBatchLoop, oracleFailFourTimes, List.range', defaultRetryCount]
  · show downloadMessageBatchLoop _ _ _ _ _ _ = _
    norm_num [downloadMessageBatchLoop, oracleAlwaysFail, List.range', defaultRetryCount]

/-! ### Identity resolver: helper lemmas -/

theorem preProcessText_external_id (f g : String → String) (a : MsgAttrs) :
    (preProcessText f g a).external_id = a.external_id := by
  unfold preProcessText
  dsimp only
  split
  · split <;> rfl
  · rfl

theorem preProcessText_timestamp (f g : String → String) (a : MsgAttrs) :
    (preProcessText f g a).timestamp = a.timestamp := by
  unfold preProcessText
  dsimp only
  split
  · split <;> rfl
  · rfl

theorem oneOrNone_mem {α : Type} {xs : List α} {x : α} (h : oneOrNone xs = some (some x)) :
    x ∈ xs := by
  match xs, h with
  | [y], h => simp only [oneOrNone, Option.some.injEq] at h; simp [h]

/-- C1: within one conversation, `get_or_create_message` persists at most one
row per external id: on a state with no message for the key, the first call
creates and returns `(created := true, m)` and increments `messages_added`
once; afterwards exactly one row matches the key, and every subsequent call
whose descriptor carries the same external id returns `(created := false, m)`
for that same row and leaves the state (hence `messages_added`) unchanged. -/
theorem get_or_create_message_at_most_once (stripT stripH : String → String)
    (st : BState) (convId : Nat) (a : MsgAttrs) (k : String)
    (hk : a.external_id = k) (hk0 : k ≠ "") (ht : ∃ ts, a.timestamp = some ts)
    (hnone : st.db.messages.filter
      (fun m => m.conversationId == convId && m.external_id == k) = []) :
    ∃ m st1,
      getOrCreateMessage stripT stripH st convId a = some (true, m, st1) ∧
      m.external_id = k ∧
      st1.stats.messages_added = st.stats.messages_added + 1 ∧
      (st1.db.messages.filter
        (fun m' => m'.conversationId == convId && m'.external_id == k)).length = 1 ∧
      ∀ a2 : MsgAttrs, a2.external_id = k →
        getOrCreateMessage stripT stripH st1 convId a2 = some (false, m, st1) := by
  obtain ⟨ts, hts⟩ := ht
  have hext : (preProcessText stripT stripH a).external_id = k := by
    rw [preProcessText_external_id, hk]
  have htime : (preProcessText stripT stripH a).timestamp = some ts := by
    rw [preProcessText_timestamp, hts]
  have hcond : (k != "") = true := by simp [hk0]
  set aP := preProcessText stripT stripH a with haP
  set m : Message :=
    { id := st.db.nextId, conversationId := convId, external_id := k,
      senderId := aP.senderKey.getD none, recipientId := aP.recipientKey.getD none,
      timestamp := ts, text := aP.text, html := aP.html } with hm
  set st1 : BState := { st with
    db := { st.db with messages := st.db.messages ++ [m], nextId := st.db.nextId + 1 },
    stats := { st.stats with messages_added := st.stats.messages_added + 1 } } with hst1
  have hfilter1 : st1.db.messages.filter
      (fun m' => m'.conversationId == convId && m'.external_id == k) = [m] := by
    rw [hst1]
    simp only [List.filter_append, hnone, List.nil_append]
    simp [hm, List.filter]
  refine ⟨m, st1, ?_, rfl, rfl, ?_, ?_⟩
  · unfold getOrCreateMessage getOrCreateMessageCore
    rw [← haP]
    simp only [hext, htime]
    rw [if_pos hcond, hnone]
    rfl
  · rw [hfilter1]
    rfl
  · intro a2 hk2
    have hext2 : (preProcessText stripT stripH a2).external_id = k := by
      rw [preProcessText_external_id, hk2]
    unfold getOrCreateMessage getOrCreateMessageCore
    simp only [hext2]
    rw [if_pos hcond, hfilter1]
    rfl

/-- C10: the per-run external-id cache never serves a stale negative result:
a cache lookup that yields a stored contact short-circuits and returns it with
the state untouched, while an absent key *or a stored negative* falls through
to a fresh database query, so a contact present in the store (for example one
created after the negative was cached) is found and returned. -/
theorem find_contact_by_external_id_cache (acct : Nat) (st : BState) (eid : String) :
    (∀ cid c, cacheLookup st.cache eid = some (some cid) →
      st.db.contacts.find? (fun x => x.id == cid) = some c →
      findContactByExternalId acct st eid = some (some c, st)) ∧
    (∀ c, (cacheLookup st.cache eid = none ∨ cacheLookup st.cache eid = some none) →
      queryContactByExternalId st.db acct eid = some (some c) →
      findContactByExternalId acct st eid
        = some (some c, { st with cache := cacheStore st.cache eid (some c.id) })) := by
  constructor
  · intro cid c hcache hfind
    unfold findContactByExternalId
    rw [hcache]
    dsimp only
    rw [hfind]
  · intro c hcache hquery
    unfold findContactByExternalId
    rcases hcache with h | h <;> (rw [h]; dsimp only; rw [hquery]; rfl)

/-- Witness for `find_contact_by_external_id_cache`: a cache holding contact 0
for `"u1"` short-circuits to it, and a cached negative for `"u1"` is ignored
once the store holds a matching contact. -/
theorem find_contact_by_external_id_cache_witness :
    findContactByExternalId 0 cacheHitState "u1" = some (some cachedContact, cacheHitState) ∧
    findContactByExternalId 0 cacheNegState "u1"
      = some (some cachedContact,
          { cacheNegState with
            cache := cacheStore cacheNegState.cache "u1" (some cachedContact.id) }) := by
  constructor
  · exact (find_contact_by_external_id_cache 0 cacheHitState "u1").1 0 cachedContact
      (by decide) (by decide)
  · exact (find_contact_by_external_id_cache 0 cacheNegState "u1").2 cachedContact
      (Or.inr (by decide)) (by decide)

/-- Witness for `get_or_create_message_at_most_once` at the C1 scenario:
duplicate descriptors `{external_id := "100", text := "hi"}` on a fresh
conversation yield exactly one persisted message and `messages_added = 1`. -/
theorem get_or_create_message_at_most_once_witness :
    ∃ m st1,
      getOrCreateMessage id id emptyState 0 dupDescriptor = some (true, m, st1) ∧
      m.external_id = "100" ∧
      st1.stats.messages_added = emptyState.stats.messages_added + 1 ∧
      (st1.db.messages.filter
        (fun m' => m'.conversationId == 0 && m'.external_id == "100")).length = 1 ∧
      ∀ a2 : MsgAttrs, a2.external_id = "100" →
        getOrCreateMessage id id st1 0 a2 = some (false, m, st1) :=
  get_or_create_message_at_most_once id id emptyState 0 dupDescriptor "100"
    rfl (by decide) ⟨7, rfl⟩ rfl

/-- C4 (refutation of the telephone-number criterion): the contact lookup by
telephone number joins `Contact.telephone_numbers` but filters on
`EmailAddress.value`, so with a contact linked to telephone number `"555"`
and no email-address row of that value the query returns no match, and
`get_or_create_contact(telephone_number="555")` creates a second contact
instead of returning the existing one. -/
theorem find_contact_by_telephone_number_broken :
    findContactByTelephoneNumber phoneLookupState.db 0 "555" = some none ∧
    (getOrCreateContact 0 phoneLookupState { telephone_number := "555" }).map
        (fun p => (p.1.id, p.2.db.contacts.length))
      = some (1, 2) := by
  constructor
  · decide
  · decide

/-! ### Frame and membership lemmas for `get_or_create_contact` -/

theorem getOrCreateEmailAddress_frame {db : Db} {stats : Stats} {v e : String}
    {db' : Db} {stats' : Stats}
    (h : getOrCreateEmailAddress db stats v = some (e, db', stats')) :
    db'.contacts = db.contacts ∧ db'.nextId = db.nextId ∧
    stats'.contacts_added = stats.contacts_added ∧
    stats'.contacts_changed = stats.contacts_changed := by
  unfold getOrCreateEmailAddress at h
  split at h
  · exact absurd h (by simp)
  · simp only [Option.some.injEq, Prod.mk.injEq] at h
    obtain ⟨-, rfl, rfl⟩ := h
    exact ⟨rfl, rfl, rfl, rfl⟩
  · simp only [Option.some.injEq, Prod.mk.injEq] at h
    obtain ⟨-, rfl, rfl⟩ := h
    exact ⟨rfl, rfl, rfl, rfl⟩

theorem getOrCreateTelephoneNumber_frame {db : Db} {stats : Stats} {v e : String}
    {db' : Db} {stats' : Stats}
    (h : getOrCreateTelephoneNumber db stats v = some (e, db', stats')) :
    db'.contacts = db.contacts ∧ db'.nextId = db.nextId ∧
    stats'.contacts_added = stats.contacts_added ∧
    stats'.contacts_changed = stats.contacts_changed := by
  unfold getOrCreateTelephoneNumber at h
  split at h
  · exact absurd h (by simp)
  · simp only [Option.some.injEq, Prod.mk.injEq] at h
    obtain ⟨-, rfl, rfl⟩ := h
    exact ⟨rfl, rfl, rfl, rfl⟩
  · simp only [Option.some.injEq, Prod.mk.injEq] at h
    obtain ⟨-, rfl, rfl⟩ := h
    exact ⟨rfl, rfl, rfl, rfl⟩

theorem associateEmail_frame {acc acc' : MergeAcc} {v : String}
    (h : associateEmail acc v = some acc') :
    acc'.contact.id = acc.contact.id ∧
    acc'.contact.external_id = acc.contact.external_id ∧
    acc'.contact.first_name = acc.contact.first_name ∧
    acc'.contact.last_name = acc.contact.last_name ∧
    acc'.db.contacts = acc.db.contacts ∧
    acc'.db.nextId = acc.db.nextId ∧
    acc'.stats.contacts_added = acc.stats.contacts_added ∧
    acc'.stats.contacts_changed = acc.stats.contacts_changed ∧
    (acc.changed = true → acc'.changed = true) := by
  unfold associateEmail at h
  split at h
  · exact absurd h (by simp)
  · rename_i obj db' stats' heq
    have hf := getOrCreateEmailAddress_frame heq
    split at h <;> (injection h with h; subst h)
    · exact ⟨rfl, rfl, rfl, rfl, hf.1, hf.2.1, hf.2.2.1, hf.2.2.2, fun hc => hc⟩
    · exact ⟨rfl, rfl, rfl, rfl, hf.1, hf.2.1, hf.2.2.1, hf.2.2.2, fun _ => rfl⟩

theorem associatePhone_frame {acc acc' : MergeAcc} {v : String}
    (h : associatePhone acc v = some acc') :
    acc'.contact.id = acc.contact.id ∧
    acc'.contact.external_id = acc.contact.external_id ∧
    acc'.contact.first_name = acc.contact.first_name ∧
    acc'.contact.last_name = acc.contact.last_name ∧
    acc'.db.contacts = acc.db.contacts ∧
    acc'.db.nextId = acc.db.nextId ∧
    acc'.stats.contacts_added = acc.stats.contacts_added ∧
    acc'.stats.contacts_changed = acc.stats.contacts_changed ∧
    (acc.changed = true → acc'.changed = true) := by
  unfold associatePhone at h
  split at h
  · exact absurd h (by simp)
  · rename_i obj db' stats' heq
    have hf := getOrCreateTelephoneNumber_frame heq
    split at h <;> (injection h with h; subst h)
    · exact ⟨rfl, rfl, rfl, rfl, hf.1, hf.2.1, hf.2.2.1, hf.2.2.2, fun hc => hc⟩
    · exact ⟨rfl, rfl, rfl, rfl, hf.1, hf.2.1, hf.2.2.1, hf.2.2.2, fun _ => rfl⟩

theorem associateEmails_frame (vs : List String) {acc acc' : MergeAcc}
    (h : associateEmails vs acc = some acc') :
    acc'.contact.id = acc.contact.id ∧
    acc'.contact.external_id = acc.contact.external_id ∧
    acc'.contact.first_name = acc.contact.first_name ∧
    acc'.contact.last_name = acc.contact.last_name ∧
    acc'.db.contacts = acc.db.contacts ∧
    acc'.db.nextId = acc.db.nextId ∧
    acc'.stats.contacts_added = acc.stats.contacts_added ∧
    acc'.stats.contacts_changed = acc.stats.contacts_changed ∧
    (acc.changed = true → acc'.changed = true) := by
  induction vs generalizing acc with
  | nil =>
      injection h with h
      subst h
      exact ⟨rfl, rfl, rfl, rfl, rfl, rfl, rfl, rfl, fun hc => hc⟩
  | cons v rest ih =>
      unfold associateEmails at h
      split at h
      · exact absurd h (by simp)
      · rename_i acc1 heq
        have h1 := associateEmail_frame heq
        have h2 := ih h
        exact ⟨h2.1.trans h1.1, h2.2.1.trans h1.2.1, h2.2.2.1.trans h1.2.2.1,
          h2.2.2.2.1.trans h1.2.2.2.1, h2.2.2.2.2.1.trans h1.2.2.2.2.1,
          h2.2.2.2.2.2.1.trans h1.2.2.2.2.2.1,
          h2.2.2.2.2.2.2.1.trans h1.2.2.2.2.2.2.1,
          h2.2.2.2.2.2.2.2.1.trans h1.2.2.2.2.2.2.2.1,
          fun hc => h2.2.2.2.2.2.2.2.2 (h1.2.2.2.2.2.2.2.2 hc)⟩

theorem associatePhones_frame (vs : List String) {acc acc' : MergeAcc}
    (h : associatePhones vs acc = some acc') :
    acc'.contact.id = acc.contact.id ∧
    acc'.contact.external_id = acc.contact.external_id ∧
    acc'.contact.first_name = acc.contact.first_name ∧
    acc'.contact.last_name = acc.contact.last_name ∧
    acc'.db.contacts = acc.db.contacts ∧
    acc'.db.nextId = acc.db.nextId ∧
    acc'.stats.contacts_added = acc.stats.contacts_added ∧
    acc'.stats.contacts_changed = acc.stats.contacts_changed ∧
    (acc.changed = true → acc'.changed = true) := by
  induction vs generalizing acc with
  | nil =>
      injection h with h
      subst h
      exact ⟨rfl, rfl, rfl, rfl, rfl, rfl, rfl, rfl, fun hc => hc⟩
  | cons v rest ih =>
      unfold associatePhones at h
      split at h
      · exact absurd h (by simp)
      · rename_i acc1 heq
        have h1 := associatePhone_frame heq
        have h2 := ih h
        exact ⟨h2.1.trans h1.1, h2.2.1.trans h1.2.1, h2.2.2.1.trans h1.2.2.1,
          h2.2.2.2.1.trans h1.2.2.2.1, h2.2.2.2.2.1.trans h1.2.2.2.2.1,
          h2.2.2.2.2.2.1.trans h1.2.2.2.2.2.1,
          h2.2.2.2.2.2.2.1.trans h1.2.2.2.2.2.2.1,
          h2.2.2.2.2.2.2.2.1.trans h1.2.2.2.2.2.2.2.1,
          fun hc => h2.2.2.2.2.2.2.2.2 (h1.2.2.2.2.2.2.2.2 hc)⟩

theorem associateEmails_changed_of_unlinked (vs : List String) {acc acc' : MergeAcc}
    (h : associateEmails vs acc = some acc') (hemp : acc.contact.email_addresses = [])
    (hvs : vs ≠ []) : acc'.changed = true := by
  cases vs with
  | nil => exact absurd rfl hvs
  | cons v rest =>
      unfold associateEmails at h
      split at h
      · exact absurd h (by simp)
      · rename_i acc1 heq
        have hc1 : acc1.changed = true := by
          unfold associateEmail at heq
          split at heq
          · exact absurd heq (by simp)
          · rename_i obj db' stats' hget
            rw [hemp, if_neg (by simp)] at heq
            injection heq with heq
            subst heq
            rfl
        exact (associateEmails_frame rest h).2.2.2.2.2.2.2.2 hc1

theorem associatePhones_changed_of_unlinked (vs : List String) {acc acc' : MergeAcc}
    (h : associatePhones vs acc = some acc') (hemp : acc.contact.telephone_numbers = [])
    (hvs : vs ≠ []) : acc'.changed = true := by
  cases vs with
  | nil => exact absurd rfl hvs
  | cons v rest =>
      unfold associatePhones at h
      split at h
      · exact absurd h (by simp)
      · rename_i acc1 heq
        have hc1 : acc1.changed = true := by
          unfold associatePhone at heq
          split at heq
          · exact absurd heq (by simp)
          · rename_i obj db' stats' hget
            rw [hemp, if_neg (by simp)] at heq
            injection heq with heq
            subst heq
            rfl
        exact (associatePhones_frame rest h).2.2.2.2.2.2.2.2 hc1

theorem findContactByExternalId_frame {acct : Nat} {st : BState} {eid : String}
    {r : Option Contact} {st' : BState}
    (h : findContactByExternalId acct st eid = some (r, st')) :
    st'.db = st.db ∧ st'.stats = st.stats := by
  unfold findContactByExternalId at h
  split at h
  · simp only [Option.some.injEq, Prod.mk.injEq] at h
    obtain ⟨-, rfl⟩ := h
    exact ⟨rfl, rfl⟩
  · split at h
    · exact absurd h (by simp)
    · simp only [Option.some.injEq, Prod.mk.injEq] at h
      obtain ⟨-, rfl⟩ := h
      exact ⟨rfl, rfl⟩

theorem findContactByExternalId_found_mem {acct : Nat} {st : BState} {eid : String}
    {c : Contact} {st' : BState}
    (h : findContactByExternalId acct st eid = some (some c, st')) :
    c ∈ st.db.contacts := by
  unfold findContactByExternalId at h
  split at h
  · simp only [Option.some.injEq, Prod.mk.injEq] at h
    exact List.mem_of_find?_eq_some h.1
  · split at h
    · exact absurd h (by simp)
    · rename_i v heq
      simp only [Option.some.injEq, Prod.mk.injEq] at h
      obtain ⟨rfl, -⟩ := h
      unfold queryContactByExternalId at heq
      exact List.mem_of_mem_filter (oneOrNone_mem heq)

theorem findContactByEmailAddress_found_mem {db : Db} {acct : Nat} {v : String}
    {c : Contact} (h : findContactByEmailAddress db acct v = some (some c)) :
    c ∈ db.contacts := by
  unfold findContactByEmailAddress at h
  exact List.mem_of_mem_filter (oneOrNone_mem h)

theorem findContactByTelephoneNumber_found_mem {db : Db} {acct : Nat} {v : String}
    {c : Contact} (h : findContactByTelephoneNumber db acct v = some (some c)) :
    c ∈ db.contacts := by
  unfold findContactByTelephoneNumber at h
  have hm := oneOrNone_mem h
  rw [List.mem_flatMap] at hm
  obtain ⟨c0, hc0, hin⟩ := hm
  rw [List.mem_flatMap] at hin
  obtain ⟨-, -, hin2⟩ := hin
  rw [List.mem_map] at hin2
  obtain ⟨-, -, rfl⟩ := hin2
  exact List.mem_of_mem_filter hc0

theorem firstContactMatch_found {f : String → Option (Option Contact)} {vs : List String}
    {c : Contact} (h : firstContactMatch f vs = some (some c)) :
    ∃ v ∈ vs, f v = some (some c) := by
  induction vs with
  | nil => simp [firstContactMatch] at h
  | cons v rest ih =>
      unfold firstContactMatch at h
      split at h
      · exact absurd h (by simp)
      · rename_i c0 heq
        injection h with h
        injection h with h
        subst h
        exact ⟨v, List.mem_cons_self v rest, heq⟩
      · obtain ⟨w, hw, hfw⟩ := ih h
        exact ⟨w, List.mem_cons_of_mem v hw, hfw⟩

theorem findContactByAttributes_frame {acct : Nat} {st : BState} {eid : String}
    {emails phones : List String} {r : Option Contact} {st1 : BState}
    (h : findContactByAttributes acct st eid emails phones = some (r, st1)) :
    st1.db = st.db ∧ st1.stats = st.stats := by
  unfold findContactByAttributes at h
  dsimp only at h
  split at h
  · split at h
    · exact absurd h (by simp)
    · rename_i c st' heq
      simp only [Option.some.injEq, Prod.mk.injEq] at h
      obtain ⟨-, rfl⟩ := h
      exact findContactByExternalId_frame heq
    · rename_i st' heq
      have hfr := findContactByExternalId_frame heq
      split at h
      · exact absurd h (by simp)
      · simp only [Option.some.injEq, Prod.mk.injEq] at h
        obtain ⟨-, rfl⟩ := h
        exact hfr
      · split at h
        · exact absurd h (by simp)
        · simp only [Option.some.injEq, Prod.mk.injEq] at h
          obtain ⟨-, rfl⟩ := h
          exact hfr
  · split at h
    · exact absurd h (by simp)
    · simp only [Option.some.injEq, Prod.mk.injEq] at h
      obtain ⟨-, rfl⟩ := h
      exact ⟨rfl, rfl⟩
    · split at h
      · exact absurd h (by simp)
      · simp only [Option.some.injEq, Prod.mk.injEq] at h
        obtain ⟨-, rfl⟩ := h
        exact ⟨rfl, rfl⟩

theorem findContactByAttributes_found_mem {acct : Nat} {st : BState} {eid : String}
    {emails phones : List String} {c : Contact} {st1 : BState}
    (h : findContactByAttributes acct st eid emails phones = some (some c, st1)) :
    c ∈ st.db.contacts := by
  unfold findContactByAttributes at h
  dsimp only at h
  split at h
  · split at h
    · exact absurd h (by simp)
    · rename_i c0 st' heq
      simp only [Option.some.injEq, Prod.mk.injEq] at h
      obtain ⟨rfl, -⟩ := h
      exact findContactByExternalId_found_mem heq
    · rename_i st' heq
      have hdb : st'.db = st.db := (findContactByExternalId_frame heq).1
      split at h
      · exact absurd h (by simp)
      · rename_i c0 heq2
        simp only [Option.some.injEq, Prod.mk.injEq] at h
        obtain ⟨rfl, -⟩ := h
        obtain ⟨w, -, hfw⟩ := firstContactMatch_found heq2
        have := findContactByEmailAddress_found_mem hfw
        rwa [hdb] at this
      · split at h
        · exact absurd h (by simp)
        · rename_i r0 heq3
          simp only [Option.some.injEq, Prod.mk.injEq] at h
          obtain ⟨rfl, -⟩ := h
          obtain ⟨w, -, hfw⟩ := firstContactMatch_found heq3
          have := findContactByTelephoneNumber_found_mem hfw
          rwa [hdb] at this
  · split at h
    · exact absurd h (by simp)
    · rename_i c0 heq2
      simp only [Option.some.injEq, Prod.mk.injEq] at h
      obtain ⟨rfl, -⟩ := h
      obtain ⟨w, -, hfw⟩ := firstContactMatch_found heq2
      exact findContactByEmailAddress_found_mem hfw
    · split at h
      · exact absurd h (by simp)
      · rename_i r0 heq3
        simp only [Option.some.injEq, Prod.mk.injEq] at h
        obtain ⟨rfl, -⟩ := h
        obtain ⟨w, -, hfw⟩ := firstContactMatch_found heq3
        exact findContactByTelephoneNumber_found_mem hfw

theorem fillAttr_preserves {dbVal : String} (newVal : String) (h : dbVal ≠ "") :
    (fillAttr dbVal newVal).1 = dbVal := by
  unfold fillAttr
  split
  · rename_i hc
    rw [Bool.and_eq_true] at hc
    exact absurd (by simpa using hc.2) h
  · rfl

/-- C3: `get_or_create_contact` never overwrites a non-empty stored column
attribute — a later call only fills attributes that are empty — and the
scenario `get_or_create_contact(external_id="u1", full_name="Alice")` followed
by `get_or_create_contact(external_id="u1", last_name="Smith")` yields exactly
one contact with first name `"Alice"` and last name `"Smith"`, with
`contacts_added = 1` and `contacts_changed = 1`. -/
theorem get_or_create_contact_never_clobbers :
    (∀ (acct : Nat) (st : BState) (a : ContactAttrs) (c : Contact) (st' : BState),
      (st.db.contacts.map (fun x => x.id)).Nodup →
      (∀ x ∈ st.db.contacts, x.id < st.db.nextId) →
      getOrCreateContact acct st a = some (c, st') →
      ∀ c0 ∈ st.db.contacts, ∃ c0', c0' ∈ st'.db.contacts ∧ c0'.id = c0.id ∧
        (c0.external_id ≠ "" → c0'.external_id = c0.external_id) ∧
        (c0.first_name ≠ "" → c0'.first_name = c0.first_name) ∧
        (c0.last_name ≠ "" → c0'.last_name = c0.last_name)) ∧
    contactScenarioSecond.map (fun p =>
      (p.1.first_name, p.1.last_name, p.2.db.contacts.length,
       p.2.stats.contacts_added, p.2.stats.contacts_changed))
      = some ("Alice", "Smith", 1, 1, 1) := by
  constructor
  · intro acct st a c st' hnodup hfresh hrun c0 hc0
    unfold getOrCreateContact at hrun
    split at hrun
    · exact absurd hrun (by simp)
    · rename_i found st1 heqF
      have hfr := findContactByAttributes_frame heqF
      split at hrun
      · exact absurd hrun (by simp)
      · rename_i acc1 heq1
        split at hrun
        · exact absurd hrun (by simp)
        · rename_i acc2 heq2
          simp only [finishContact, Option.some.injEq, Prod.mk.injEq] at hrun
          obtain ⟨-, rfl⟩ := hrun
          have h2 := associatePhones_frame _ heq2
          cases found with
          | some cF =>
              have hmem : cF ∈ st.db.contacts := findContactByAttributes_found_mem heqF
              have heq1' : associateEmails (translatedEmails a) (mergeBranch st1 a cF)
                  = some acc1 := heq1
              have h1 := associateEmails_frame _ heq1'
              have hcid : acc2.contact.id = cF.id := by rw [h2.1, h1.1]; rfl
              have hcontacts : acc2.db.contacts = st.db.contacts := by
                rw [h2.2.2.2.2.1, h1.2.2.2.2.1]
                show st1.db.contacts = st.db.contacts
                rw [hfr.1]
              by_cases hid : c0.id = cF.id
              · have hc0F : c0 = cF := List.inj_on_of_nodup_map hnodup hc0 hmem hid
                have hcid0 : acc2.contact.id = c0.id := by rw [hcid, hc0F]
                refine ⟨acc2.contact, ?_, hcid0, ?_, ?_, ?_⟩
                · show acc2.contact ∈ (replaceContact acc2.db acc2.contact).contacts
                  unfold replaceContact
                  dsimp only
                  rw [hcontacts]
                  have himg : (if c0.id == acc2.contact.id then acc2.contact else c0)
                      ∈ st.db.contacts.map
                        (fun x => if x.id == acc2.contact.id then acc2.contact else x) :=
                    List.mem_map_of_mem _ hc0
                  rwa [if_pos (by rw [hcid0]; simp)] at himg
                · intro hne
                  have hval : acc2.contact.external_id
                      = (fillAttr cF.external_id a.external_id).1 := by
                    rw [h2.2.1, h1.2.1]; rfl
                  rw [hval, ← hc0F]
                  exact fillAttr_preserves _ hne
                · intro hne
                  have hval : acc2.contact.first_name
                      = (fillAttr cF.first_name (splitFullName a).1).1 := by
                    rw [h2.2.2.1, h1.2.2.1]; rfl
                  rw [hval, ← hc0F]
                  exact fillAttr_preserves _ hne
                · intro hne
                  have hval : acc2.contact.last_name
                      = (fillAttr cF.last_name (splitFullName a).2).1 := by
                    rw [h2.2.2.2.1, h1.2.2.2.1]; rfl
                  rw [hval, ← hc0F]
                  exact fillAttr_preserves _ hne
              · refine ⟨c0, ?_, rfl, fun _ => rfl, fun _ => rfl, fun _ => rfl⟩
                show c0 ∈ (replaceContact acc2.db acc2.contact).contacts
                unfold replaceContact
                dsimp only
                rw [hcontacts]
                have himg : (if c0.id == acc2.contact.id then acc2.contact else c0)
                    ∈ st.db.contacts.map
                      (fun x => if x.id == acc2.contact.id then acc2.contact else x) :=
                  List.mem_map_of_mem _ hc0
                rwa [if_neg (by rw [hcid]; simpa using hid)] at himg
          | none =>
              have heq1' : associateEmails (translatedEmails a) (createBranch acct st1 a)
                  = some acc1 := heq1
              have h1 := associateEmails_frame _ heq1'
              have hcid : acc2.contact.id = st.db.nextId := by
                rw [h2.1, h1.1]
                show st1.db.nextId = st.db.nextId
                rw [hfr.1]
              have hcontacts : acc2.db.contacts
                  = st.db.contacts ++ [newContact acct st1 a] := by
                rw [h2.2.2.2.2.1, h1.2.2.2.2.1]
                show st1.db.contacts ++ [newContact acct st1 a]
                  = st.db.contacts ++ [newContact acct st1 a]
                rw [hfr.1]
              have hid : c0.id ≠ acc2.contact.id := by
                rw [hcid]
                exact Nat.ne_of_lt (hfresh c0 hc0)
              refine ⟨c0, ?_, rfl, fun _ => rfl, fun _ => rfl, fun _ => rfl⟩
              show c0 ∈ (replaceContact acc2.db acc2.contact).contacts
              unfold replaceContact
              dsimp only
              rw [hcontacts]
              have himg : (if c0.id == acc2.contact.id then acc2.contact else c0)
                  ∈ (st.db.contacts ++ [newContact acct st1 a]).map
                    (fun x => if x.id == acc2.contact.id then acc2.contact else x) :=
                List.mem_map_of_mem _ (List.mem_append_left [newContact acct st1 a] hc0)
              rwa [if_neg (by simpa using hid)] at himg
  · decide

/-- Witness for `get_or_create_contact_never_clobbers`: a second import for
`"u1"` with no new data leaves the stored contact intact. -/
theorem get_or_create_contact_never_clobbers_witness :
    ∃ c0', c0' ∈ cacheHitState.db.contacts ∧ c0'.id = cachedContact.id ∧
      (cachedContact.external_id ≠ "" → c0'.external_id = cachedContact.external_id) ∧
      (cachedContact.first_name ≠ "" → c0'.first_name = cachedContact.first_name) ∧
      (cachedContact.last_name ≠ "" → c0'.last_name = cachedContact.last_name) :=
  get_or_create_contact_never_clobbers.1 0 cacheNegState { external_id := "u1" }
    cachedContact cacheHitState (by decide) (by decide) (by decide) cachedContact (by decide)

/-- C9: a brand-new contact creation increments `contacts_added`; when at
least one email address or telephone number is supplied (hence linked to the
fresh contact), the same call also increments `contacts_changed`; a creation
linking no address or number leaves `contacts_changed` untouched. -/
theorem get_or_create_contact_creation_stats (acct : Nat) (st : BState) (a : ContactAttrs)
    (c : Contact) (st' : BState)
    (hnotfound : ∃ st1, findContactByAttributes acct st a.external_id
      (translatedEmails a) (translatedPhones a) = some (none, st1))
    (hrun : getOrCreateContact acct st a = some (c, st')) :
    st'.stats.contacts_added = st.stats.contacts_added + 1 ∧
    ((translatedEmails a ≠ [] ∨ translatedPhones a ≠ []) →
      st'.stats.contacts_changed = st.stats.contacts_changed + 1) ∧
    (translatedEmails a = [] ∧ translatedPhones a = [] →
      st'.stats.contacts_changed = st.stats.contacts_changed) := by
  obtain ⟨st1, heqF⟩ := hnotfound
  have hfr := findContactByAttributes_frame heqF
  unfold getOrCreateContact at hrun
  rw [heqF] at hrun
  have hrun' : (match associateEmails (translatedEmails a) (createBranch acct st1 a) with
      | none => none
      | some acc1 =>
          match associatePhones (translatedPhones a) acc1 with
          | none => none
          | some acc2 => some (finishContact st1 acc2)) = some (c, st') := hrun
  clear hrun
  split at hrun'
  · exact absurd hrun' (by simp)
  · rename_i acc1 heq1
    split at hrun'
    · exact absurd hrun' (by simp)
    · rename_i acc2 heq2
      simp only [finishContact, Option.some.injEq, Prod.mk.injEq] at hrun'
      obtain ⟨-, rfl⟩ := hrun'
      have h1 := associateEmails_frame _ heq1
      have h2 := associatePhones_frame _ heq2
      have hadded : acc2.stats.contacts_added = st.stats.contacts_added + 1 := by
        rw [h2.2.2.2.2.2.2.1, h1.2.2.2.2.2.2.1]
        show st1.stats.contacts_added + 1 = st.stats.contacts_added + 1
        rw [hfr.2]
      have hchanged : acc2.stats.contacts_changed = st.stats.contacts_changed := by
        rw [h2.2.2.2.2.2.2.2.1, h1.2.2.2.2.2.2.2.1]
        show st1.stats.contacts_changed = st.stats.contacts_changed
        rw [hfr.2]
      refine ⟨?_, ?_, ?_⟩
      · dsimp only
        by_cases hch : acc2.changed = true
        · rw [if_pos hch]
          exact hadded
        · rw [if_neg hch]
          exact hadded
      · intro hor
        have hch : acc2.changed = true := by
          by_cases he : translatedEmails a = []
          · have hp : translatedPhones a ≠ [] := by
              rcases hor with h | h
              · exact absurd he h
              · exact h
            have hacc1 : createBranch acct st1 a = acc1 := by
              rw [he] at heq1
              have h := heq1
              injection h
            exact associatePhones_changed_of_unlinked _ heq2 (by rw [← hacc1]; rfl) hp
          · exact h2.2.2.2.2.2.2.2.2
              (associateEmails_changed_of_unlinked _ heq1 rfl he)
        dsimp only
        rw [if_pos hch]
        dsimp only
        rw [hchanged]
      · rintro ⟨he, hp⟩
        have hacc1 : createBranch acct st1 a = acc1 := by
          rw [he] at heq1
          have h := heq1
          injection h
        have hacc2 : acc1 = acc2 := by
          rw [hp] at heq2
          have h := heq2
          injection h
        have hch : acc2.changed = false := by
          rw [← hacc2, ← hacc1]
          rfl
        dsimp only
        rw [if_neg (by rw [hch]; simp)]
        exact hchanged

/-- Witness for `get_or_create_contact_creation_stats`: creating `"w1"` with
one email address bumps both counters; creating it bare bumps only
`contacts_added`. -/
theorem get_or_create_contact_creation_stats_witness :
    (c9EmailState.stats.contacts_added = emptyState.stats.contacts_added + 1 ∧
     c9EmailState.stats.contacts_changed = emptyState.stats.contacts_changed + 1) ∧
    (c9PlainState.stats.contacts_added = emptyState.stats.contacts_added + 1 ∧
     c9PlainState.stats.contacts_changed = emptyState.stats.contacts_changed) := by
  constructor
  · have h := get_or_create_contact_creation_stats 0 emptyState
      { external_id := "w1", email_address := "a@b" } c9EmailContact c9EmailState
      ⟨{ cache := [("w1", none)] }, by decide⟩ (by decide)
    exact ⟨h.1, h.2.1 (Or.inl (by decide))⟩
  · have h := get_or_create_contact_creation_stats 0 emptyState
      { external_id := "w1" } c9PlainContact c9PlainState
      ⟨{ cache := [("w1", none)] }, by decide⟩ (by decide)
    exact ⟨h.1, h.2.2 ⟨rfl, rfl⟩⟩

/-! ### Synchronization control: lemmas and theorems -/

theorem find?_update_by_id (l : List Conversation) (convId : Nat)
    (f : Conversation → Conversation) (hf : ∀ c, (f c).id = c.id) :
    (l.map (fun c => if c.id == convId then f c else c)).find? (fun c => c.id == convId)
      = (l.find? (fun c => c.id == convId)).map f := by
  induction l with
  | nil => rfl
  | cons c rest ih =>
      by_cases h : (c.id == convId) = true
      · simp only [List.map_cons, if_pos h, List.find?_cons, hf c, h, if_true,
          eq_self_iff_true, Option.map_some']
      · have h' : (c.id == convId) = false := by rwa [Bool.not_eq_true] at h
        simp only [List.map_cons, if_neg h, List.find?_cons, hf c, h',
          Bool.false_eq_true, if_false, ih]

/-- C8 (refutation of the processing order): the batch delivered as
timestamps 2, 3, 1 is processed in raw delivery order — the sort key
`lambda e: event.timestamp` closes over the filter-loop variable `event`
instead of the lambda parameter `e`, so the key is constant and the stable
sort is the identity — while any genuine by-timestamp ordering of that batch
differs; the cursor half of the claim holds: the new cursor is the external
id of the oldest (smallest-timestamp) new message. -/
theorem download_all_messages_order_bug :
    hangoutsProcessOrder batchC8 = batchC8 ∧
    pySortedDesc (fun e => e.timestamp) batchC8 ≠ batchC8 ∧
    pySortedAsc (fun e => e.timestamp) batchC8 ≠ batchC8 ∧
    hangoutsNewCursor
      [{ id := 0, conversationId := 0, external_id := "a", timestamp := 2 },
       { id := 1, conversationId := 0, external_id := "b", timestamp := 3 },
       { id := 2, conversationId := 0, external_id := "c", timestamp := 1 }]
      = some "c" := by
  exact ⟨by decide, by decide, by decide, by decide⟩

/-- C5 (refutation of the forward-fetch half): on a `Complete` conversation
whose remote copy is newer, the Hangouts incremental fetch is issued with *no*
cursor — `cursorProbe` fails exactly on a cursor-less request and the dispatch
ends in `.error` — and the (spec-modelled) driver answer to that request
contains items no newer than the newest known message `"e9"`, so the fetch
does not request only items strictly newer than the newest known external id. -/
theorem hangouts_incremental_cursor_counterexample :
    newestMessage completeSyncState.st.db 0 = some msg9 ∧
    downloadConversation cursorProbe 0 false remoteUpdated completeSyncState
      = .error (setImportErrors completeSyncState 0 true) ∧
    (hangoutsGetEvents remoteUpdated.events none 10).any
      (fun e => decide (e.timestamp ≤ msg9.timestamp)) = true := by
  exact ⟨by decide, by decide, by decide⟩

/-- C6 (refutation of the `import_complete=false` half): when the download of
a conversation that is already `Complete` (incremental update path) raises,
`import_errors` becomes true but `import_complete` *remains true*, not false
as the claim states for every conversation. -/
theorem complete_conversation_error_flag_counterexample :
    downloadConversation alwaysFailDownload 0 false remoteUpdated completeSyncState
      = .error (setImportErrors completeSyncState 0 true) ∧
    (getConv (setImportErrors completeSyncState 0 true).st.db 0).map
        (fun c => (c.import_errors, c.import_complete))
      = some (true, true) := by
  exact ⟨by decide, by decide⟩

/-- C6 (amended): any exception escaping the per-conversation download sets
`import_errors = true` and re-raises, leaving `import_complete` and the
committed (on-disk) data of the partial state untouched — hence
`import_complete` stays false for a conversation whose initial sync has not
completed — while a fully successful backward pass first clears
`import_errors` and only then sets `import_complete` and commits. -/
theorem import_error_flag_choreography :
    (∀ (download : SyncSt → Except SyncSt SyncSt) (convId : Nat) (s s' : SyncSt),
      download s = .error s' →
      handleImportErrors download convId s = .error (setImportErrors s' convId true) ∧
      (setImportErrors s' convId true).disk = s'.disk ∧
      (getConv (setImportErrors s' convId true).st.db convId).map
          (fun c => (c.import_errors, c.import_complete))
        = (getConv s'.st.db convId).map (fun c => (true, c.import_complete))) ∧
    (∀ (download : Option String → SyncSt → Except SyncSt SyncSt) (convId : Nat)
        (s s' : SyncSt),
      download ((oldestMessage s.st.db convId).map (fun m => m.external_id)) s
        = .error s' →
      performInitialSync download convId s = .error (setImportErrors s' convId true)) ∧
    (∀ (download : Option String → SyncSt → Except SyncSt SyncSt) (convId : Nat)
        (s s' : SyncSt),
      download ((oldestMessage s.st.db convId).map (fun m => m.external_id)) s
        = .ok s' →
      performInitialSync download convId s
        = .ok (commitChanges (setImportComplete
            (setImportErrors s' convId false) convId true))) := by
  refine ⟨?_, ?_, ?_⟩
  · intro download convId s s' hdl
    refine ⟨?_, rfl, ?_⟩
    · unfold handleImportErrors
      rw [hdl]
    · show ((setImportErrors s' convId true).st.db.conversations.find?
          (fun c => c.id == convId)).map _ = _
      unfold setImportErrors
      dsimp only
      rw [find?_update_by_id s'.st.db.conversations convId
        (fun c => { c with import_errors := true }) (fun c => rfl)]
      unfold getConv
      cases s'.st.db.conversations.find? (fun c => c.id == convId) <;> rfl
  · intro download convId s s' hdl
    unfold performInitialSync handleImportErrors
    rw [hdl]
  · intro download convId s s' hdl
    unfold performInitialSync handleImportErrors
    rw [hdl]

/-- Witness for `import_error_flag_choreography`: a download that commits one
batch (message `e5`) and then raises leaves the flag set on the partial state
with the committed batch still on disk; a successful pass clears the error
flag before setting `import_complete`. -/
theorem import_error_flag_choreography_witness :
    (handleImportErrors commitThenFail 0 pendingSyncState
        = .error (setImportErrors partialState 0 true) ∧
      (setImportErrors partialState 0 true).disk = partialState.disk ∧
      (getConv (setImportErrors partialState 0 true).st.db 0).map
          (fun c => (c.import_errors, c.import_complete))
        = (getConv partialState.st.db 0).map (fun c => (true, c.import_complete))) ∧
    performInitialSync okDownload 0 pendingSyncState
      = .ok (commitChanges (setImportComplete
          (setImportErrors pendingSyncState 0 false) 0 true)) := by
  constructor
  · exact import_error_flag_choreography.1 commitThenFail 0 pendingSyncState
      partialState rfl
  · exact import_error_flag_choreography.2.2 okDownload 0 pendingSyncState
      pendingSyncState rfl

/-- C5 (amended): the backward (initial) sync resumes strictly before the
oldest known message in both backends — Hangouts passes the oldest known
external id as the `get_events` cursor, whose (spec-modelled) answer contains
only events strictly before the cursor event; Telegram passes
`max_id = int(oldest.external_id)`, which admits only strictly smaller ids —
and no already-present message is recreated (`get_or_create_message` returns
the existing row and leaves the state unchanged).  The forward (incremental)
fetch requests only items strictly newer than the newest known external id in
the Telegram backend (`min_id = int(newest.external_id)`); the Hangouts
backend instead issues its incremental fetch with *no* cursor, re-paging from
the newest remote item and relying on message identity to avoid duplicates. -/
theorem resume_cursor_policy :
    (∀ (download : Option String → SyncSt → Except SyncSt SyncSt) (convId : Nat)
        (s : SyncSt) (m : Message),
      oldestMessage s.st.db convId = some m →
      performInitialSync download convId s
        = match handleImportErrors (download (some m.external_id)) convId s with
          | .error s' => .error s'
          | .ok s' => .ok (commitChanges (setImportComplete s' convId true))) ∧
    (∀ (h : List HEvent) (eid : String) (n : Nat) (e : HEvent),
      e ∈ hangoutsGetEvents h (some eid) n →
      e ∈ h.takeWhile (fun x => x.eid != eid)) ∧
    (∀ (db : Db) (convId : Nat) (m : Message) (k : Nat),
      oldestMessage db convId = some m → parseNat m.external_id = some k → 0 < k →
      telegramInitialMaxId db convId = some k ∧
        ∀ i : Nat, telegramRequested 0 k i = true → i < k) ∧
    (∀ (db : Db) (convId : Nat) (m : Message) (k : Nat),
      newestMessage db convId = some m → parseNat m.external_id = some k → 0 < k →
      telegramUpdateMinId db convId = some k ∧
        ∀ i : Nat, telegramRequested k 0 i = true → k < i) ∧
    (∀ (download : Option String → SyncSt → Except SyncSt SyncSt) (acct : Nat)
        (force : Bool) (remote : RemoteConv) (s : SyncSt) (conv : Conversation)
        (st1 : BState),
      getOrCreateConversation acct s.st remote.external_id false false
          remote.isGroup remote.last_modified "" = some (conv, st1) →
      conv.import_errors = false → conv.import_complete = true →
      conv.last_modified < remote.last_modified →
      downloadConversation download acct force remote s
        = match handleImportErrors (download none) conv.id { s with st := st1 } with
          | .error s' => .error s'
          | .ok s' => .ok (setLastModified s' conv.id remote.last_modified)) ∧
    (∀ (st : BState) (convId : Nat) (a : MsgAttrs) (m : Message),
      a.external_id ≠ "" →
      st.db.messages.filter (fun m' =>
        m'.conversationId == convId && m'.external_id == a.external_id) = [m] →
      getOrCreateMessageCore st convId a = some (false, m, st)) := by
  refine ⟨?_, ?_, ?_, ?_, ?_, ?_⟩
  · intro download convId s m hm
    unfold performInitialSync
    rw [hm]
    rfl
  · intro h eid n e hmem
    unfold hangoutsGetEvents at hmem
    dsimp only at hmem
    rw [List.mem_reverse] at hmem
    have hmem2 := List.mem_of_mem_take hmem
    rwa [List.mem_reverse] at hmem2
  · intro db convId m k hm hk hk0
    constructor
    · unfold telegramInitialMaxId
      rw [hm]
      exact hk
    · intro i hi
      simp only [telegramRequested, Bool.and_eq_true, Bool.or_eq_true, beq_iff_eq,
        decide_eq_true_eq] at hi
      rcases hi.2 with h0 | hlt
      · exact absurd h0 (Nat.pos_iff_ne_zero.mp hk0)
      · exact hlt
  · intro db convId m k hm hk hk0
    constructor
    · unfold telegramUpdateMinId
      rw [hm]
      exact hk
    · intro i hi
      simp only [telegramRequested, Bool.and_eq_true, Bool.or_eq_true, beq_iff_eq,
        decide_eq_true_eq] at hi
      rcases hi.1 with h0 | hlt
      · exact absurd h0 (Nat.pos_iff_ne_zero.mp hk0)
      · exact hlt
  · intro download acct force remote s conv st1 hgoc herr hcomp hlt
    unfold downloadConversation
    rw [hgoc]
    dsimp only
    rw [herr, hcomp]
    rw [if_neg (by simp)]
    rw [if_pos rfl]
    rw [if_pos (by simpa using hlt)]
  · intro st convId a m hext hfilter
    unfold getOrCreateMessageCore
    rw [if_pos (by simpa using hext), hfilter]
    rfl

/-- Witness for `resume_cursor_policy`: the Hangouts resume passes cursor
`"e5"` (the oldest known message); the driver batch before `"e9"` stays within
the strictly-older prefix; Telegram resumes with `max_id = 500` and updates
with `min_id = 700`; the update dispatch on `completeConv` passes no cursor;
and re-submitting `"e9"` recreates nothing. -/
theorem resume_cursor_policy_witness :
    (performInitialSync alwaysFailDownload 0 hangoutsResumeState
        = match handleImportErrors (alwaysFailDownload (some "e5")) 0
            hangoutsResumeState with
          | .error s' => .error s'
          | .ok s' => .ok (commitChanges (setImportComplete s' 0 true))) ∧
    ({ eid := "e1", timestamp := 1 : HEvent }
      ∈ remoteUpdated.events.takeWhile (fun x => x.eid != "e9")) ∧
    (telegramInitialMaxId telegramDb 0 = some 500 ∧
      ∀ i : Nat, telegramRequested 0 500 i = true → i < 500) ∧
    (telegramUpdateMinId telegramDb 0 = some 700 ∧
      ∀ i : Nat, telegramRequested 700 0 i = true → 700 < i) ∧
    (downloadConversation alwaysFailDownload 0 false remoteUpdated completeSyncState
        = match handleImportErrors (alwaysFailDownload none) 0
            { completeSyncState with st := completeSyncState.st } with
          | .error s' => .error s'
          | .ok s' => .ok (setLastModified s' 0 10)) ∧
    getOrCreateMessageCore msg9State 0
        { external_id := "e9", text := "hi", timestamp := some 9 }
      = some (false, msg9, msg9State) := by
  refine ⟨?_, ?_, ?_, ?_, ?_, ?_⟩
  · exact resume_cursor_policy.1 alwaysFailDownload 0 hangoutsResumeState e5Msg (by decide)
  · exact resume_cursor_policy.2.1 remoteUpdated.events "e9" 10
      { eid := "e1", timestamp := 1 } (by decide)
  · exact resume_cursor_policy.2.2.1 telegramDb 0 tgMsgOld 500 (by decide) (by decide)
      (by decide)
  · exact resume_cursor_policy.2.2.2.1 telegramDb 0 tgMsgNew 700 (by decide) (by decide)
      (by decide)
  · exact resume_cursor_policy.2.2.2.2.1 alwaysFailDownload 0 false remoteUpdated
      completeSyncState completeConv completeSyncState.st (by decide) rfl rfl (by decide)
  · exact resume_cursor_policy.2.2.2.2.2 msg9State 0
      { external_id := "e9", text := "hi", timestamp := some 9 } msg9 (by decide) (by decide)

end ChatArchive
